import Mathlib

/-!
Shallow embedding of the `@apiratorjs/circuit-breaker` package
(`src/circuit-breaker.ts`, `src/with-circuit-breaker.ts`, `src/errors.ts`,
`src/types.ts`).

The authoritative implementation is the metrics-bearing `CircuitBreaker`
class: it keeps a state machine over CLOSED / OPEN / HALF_OPEN, counters,
timing bookkeeping, the cumulative metrics counters, and an optional
`onStateChange` callback.

Modelling choices:
* Times (`Date.now()`, `new Date()`) are `Int` epoch milliseconds.  Each
  `execute` call receives the time of the gate check (`tCall`) and the
  time the awaited operation settles (`tDone`), mirroring the two distinct
  `Date` reads in the source.
* JavaScript `Error` objects are modelled by `Err` (name + message),
  compared by value; `CircuitOpenError` keeps its message format and its
  `cause` field from `errors.ts`.
* The wrapped asynchronous operation is represented by its settled
  `Outcome` (resolve with a value or reject with an error); an `execute`
  call returns an `ExecTrace` recording the produced result, the updated
  breaker, how many times the operation was invoked, and the list of
  `onStateChange` callback invocations, in order.
-/

inductive ECircuitBreakerState : Type where
  | CLOSED
  | OPEN
  | HALF_OPEN
deriving DecidableEq, Repr

/-- A JavaScript `Error`-like value (`TErrorLike` in `types.ts`), reduced to
the fields the breaker reads. -/
structure Err : Type where
  name : String
  message : String
deriving DecidableEq, Repr

/-- One invocation of the `onStateChange` callback: the new state and the
optional triggering error, exactly the arguments `setState` passes. -/
abbrev Event := ECircuitBreakerState × Option Err

/-- `CircuitOpenError` from `errors.ts`: message plus optional cause. -/
structure CircuitOpenError : Type where
  message : String
  cause : Option Err
deriving DecidableEq, Repr

/-- The `CircuitOpenError` constructor from `errors.ts` lines 26-33. -/
def CircuitOpenError.make (cause : Option Err) : CircuitOpenError :=
  { message := "Circuit breaker is open caused by: " ++
      (match cause with
       | some c => c.message
       | none => "Service is not available"),
    cause := cause }

/-- `CircuitArgumentError` from `errors.ts`. -/
structure CircuitArgumentError : Type where
  message : String
deriving DecidableEq, Repr

/-- `ICircuitBreakerOptions` from `types.ts` (the optional `onStateChange`
callback is modelled by the event lists the operations return). -/
structure ICircuitBreakerOptions : Type where
  durationOfBreakInMs : Int
  failureThreshold : Int
  successThreshold : Int
deriving DecidableEq, Repr

/-- The mutable fields of the `CircuitBreaker` class
(`with-circuit-breaker.ts`, metrics-bearing variant). -/
structure CircuitBreaker : Type where
  state : ECircuitBreakerState
  failureCount : Nat
  successCount : Nat
  lastFailureTime : Int
  lastStateChangeTime : Int
  successThreshold : Nat
  durationOfBreakInMs : Int
  failureThreshold : Nat
  lastError : Option Err
  totalCalls : Nat
  successfulCalls : Nat
  failedCalls : Nat
  rejectedCalls : Nat
deriving DecidableEq, Repr

/-- `ICircuitBreakerMetrics` from `types.ts`. -/
structure ICircuitBreakerMetrics : Type where
  totalCalls : Nat
  successfulCalls : Nat
  failedCalls : Nat
  rejectedCalls : Nat
  currentState : ECircuitBreakerState
  lastFailureTime : Int
  lastStateChangeTime : Int
deriving DecidableEq, Repr

/-- The `metrics` getter. -/
def CircuitBreaker.metrics (b : CircuitBreaker) : ICircuitBreakerMetrics :=
  { totalCalls := b.totalCalls
    successfulCalls := b.successfulCalls
    failedCalls := b.failedCalls
    rejectedCalls := b.rejectedCalls
    currentState := b.state
    lastFailureTime := b.lastFailureTime
    lastStateChangeTime := b.lastStateChangeTime }

/-- The constructor: validates the three thresholds with `assert`, throwing
`CircuitArgumentError` in the source order, then initialises every field.
`now` is the construction time (`new Date()`). -/
def CircuitBreaker.new (options : ICircuitBreakerOptions) (now : Int) :
    Except CircuitArgumentError CircuitBreaker :=
  if ¬ 0 < options.successThreshold then
    .error ⟨"successThreshold must be greater than 0"⟩
  else if ¬ 0 < options.durationOfBreakInMs then
    .error ⟨"durationOfBreakInMs must be greater than 0"⟩
  else if ¬ 0 < options.failureThreshold then
    .error ⟨"failureThreshold must be greater than 0"⟩
  else
    .ok
      { state := .CLOSED
        failureCount := 0
        successCount := 0
        lastFailureTime := now
        lastStateChangeTime := now
        successThreshold := options.successThreshold.toNat
        durationOfBreakInMs := options.durationOfBreakInMs
        failureThreshold := options.failureThreshold.toNat
        lastError := none
        totalCalls := 0
        successfulCalls := 0
        failedCalls := 0
        rejectedCalls := 0 }

/-- `setState`: mutates state and `lastStateChangeTime` and invokes the
`onStateChange` callback only when the state actually changes.  The returned
list holds this call's callback invocations. -/
def CircuitBreaker.setState (b : CircuitBreaker) (now : Int)
    (newState : ECircuitBreakerState) (error : Option Err) :
    CircuitBreaker × List Event :=
  if b.state ≠ newState then
    ({ b with state := newState, lastStateChangeTime := now }, [(newState, error)])
  else
    (b, [])

/-- `reset`: clears both counters and the stored error. -/
def CircuitBreaker.reset (b : CircuitBreaker) : CircuitBreaker :=
  { b with failureCount := 0, successCount := 0, lastError := none }

/-- `onSuccess`: bump `successfulCalls`; in CLOSED do nothing more; in
HALF_OPEN bump `successCount` and, at the threshold, transition to CLOSED
and `reset`. -/
def CircuitBreaker.onSuccess (b : CircuitBreaker) (now : Int) :
    CircuitBreaker × List Event :=
  let b := { b with successfulCalls := b.successfulCalls + 1 }
  if b.state = .CLOSED then
    (b, [])
  else if b.state = .HALF_OPEN then
    let b := { b with successCount := b.successCount + 1 }
    if b.successThreshold ≤ b.successCount then
      let p := b.setState now .CLOSED none
      (p.1.reset, p.2)
    else
      (b, [])
  else
    (b, [])

/-- `onFailure`: bump `failedCalls`, record `lastError` and
`lastFailureTime`; in CLOSED bump `failureCount` and, at the threshold,
transition to OPEN (carrying the error) and zero `failureCount`; in
HALF_OPEN transition straight to OPEN and zero both counters. -/
def CircuitBreaker.onFailure (b : CircuitBreaker) (now : Int) (error : Err) :
    CircuitBreaker × List Event :=
  let b := { b with
    failedCalls := b.failedCalls + 1
    lastError := some error
    lastFailureTime := now }
  if b.state = .CLOSED then
    let b := { b with failureCount := b.failureCount + 1 }
    if b.failureThreshold ≤ b.failureCount then
      let p := b.setState now .OPEN (some error)
      ({ p.1 with failureCount := 0 }, p.2)
    else
      (b, [])
  else if b.state = .HALF_OPEN then
    let p := b.setState now .OPEN (some error)
    ({ p.1 with failureCount := 0, successCount := 0 }, p.2)
  else
    (b, [])

/-- The recovery-probe eligibility check that opens every `execute` call:
if the state is OPEN and the break duration has elapsed, transition to
HALF_OPEN and zero `successCount`. -/
def CircuitBreaker.recoveryProbe (b : CircuitBreaker) (now : Int) :
    CircuitBreaker × List Event :=
  if b.state = .OPEN ∧ b.lastFailureTime + b.durationOfBreakInMs ≤ now then
    let p := b.setState now .HALF_OPEN none
    ({ p.1 with successCount := 0 }, p.2)
  else
    (b, [])

/-- The settled outcome of the wrapped asynchronous operation. -/
inductive Outcome (α : Type) : Type where
  | success (value : α)
  | failure (error : Err)
deriving DecidableEq, Repr

/-- What a single `execute` call produces for its caller. -/
inductive ExecResult (α : Type) : Type where
  | ok (value : α)
  | opError (error : Err)
  | circuitOpen (error : CircuitOpenError)
deriving DecidableEq, Repr

/-- The observable trace of one `execute` call: the result delivered to the
caller, the updated breaker, the number of times the operation was invoked
(0 or 1), and the `onStateChange` invocations in order. -/
structure ExecTrace (α : Type) : Type where
  result : ExecResult α
  breaker : CircuitBreaker
  invocations : Nat
  events : List Event
deriving DecidableEq, Repr

/-- `execute` (with `attemptToExecute` inlined): run the recovery probe at
`tCall`; if still OPEN, count a rejected call and fail with
`CircuitOpenError(lastError)` without invoking the operation; otherwise
count the call, invoke the operation once, and dispatch its outcome at
`tDone` to `onSuccess` or `onFailure`, returning the result or re-throwing
the original error. -/
def CircuitBreaker.execute {α : Type} (b : CircuitBreaker)
    (tCall tDone : Int) (outcome : Outcome α) : ExecTrace α :=
  let p := b.recoveryProbe tCall
  let b := p.1
  if b.state = .OPEN then
    let b := { b with
      rejectedCalls := b.rejectedCalls + 1
      totalCalls := b.totalCalls + 1 }
    { result := .circuitOpen (CircuitOpenError.make b.lastError)
      breaker := b
      invocations := 0
      events := p.2 }
  else
    let b := { b with totalCalls := b.totalCalls + 1 }
    match outcome with
    | .success v =>
        let q := b.onSuccess tDone
        { result := .ok v, breaker := q.1, invocations := 1, events := p.2 ++ q.2 }
    | .failure e =>
        let q := b.onFailure tDone e
        { result := .opError e, breaker := q.1, invocations := 1, events := p.2 ++ q.2 }

/-- One scheduled call of a sequence: gate-check time, settle time, and the
operation's outcome. -/
structure CallSpec (α : Type) : Type where
  tCall : Int
  tDone : Int
  outcome : Outcome α
deriving DecidableEq, Repr

/-- Run a finite sequence of `execute` calls, each awaited to completion,
threading the breaker and collecting all callback invocations. -/
def CircuitBreaker.runCalls {α : Type} (b : CircuitBreaker) :
    List (CallSpec α) → CircuitBreaker × List Event
  | [] => (b, [])
  | c :: cs =>
      let tr := b.execute c.tCall c.tDone c.outcome
      let rest := tr.breaker.runCalls cs
      (rest.1, tr.events ++ rest.2)

/-- A sequence of failing calls, all at time `t`. -/
def CircuitBreaker.runFails (b : CircuitBreaker) (t : Int) (errs : List Err) :
    CircuitBreaker × List Event :=
  b.runCalls (α := Unit) (errs.map fun e => ⟨t, t, .failure e⟩)

/-- A sequence of successful calls, all at time `t`. -/
def CircuitBreaker.runSuccs {α : Type} (b : CircuitBreaker) (t : Int)
    (vals : List α) : CircuitBreaker × List Event :=
  b.runCalls (vals.map fun v => ⟨t, t, .success v⟩)

/-! ### Single-call characterisations of `execute` -/

theorem execute_closed_success {α : Type} (b : CircuitBreaker) (t t' : Int)
    (v : α) (hs : b.state = .CLOSED) :
    b.execute t t' (.success v) =
      { result := .ok v
        breaker := { b with
          totalCalls := b.totalCalls + 1
          successfulCalls := b.successfulCalls + 1 }
        invocations := 1
        events := [] } := by
  have h1 : ¬ (b.state = .OPEN ∧ b.lastFailureTime + b.durationOfBreakInMs ≤ t) := by
    simp [hs]
  simp [CircuitBreaker.execute, CircuitBreaker.recoveryProbe, CircuitBreaker.onSuccess,
    CircuitBreaker.setState, hs, h1]

theorem execute_closed_fail_lt {α : Type} (b : CircuitBreaker) (t t' : Int)
    (e : Err) (hs : b.state = .CLOSED)
    (hlt : b.failureCount + 1 < b.failureThreshold) :
    b.execute (α := α) t t' (.failure e) =
      { result := .opError e
        breaker := { b with
          totalCalls := b.totalCalls + 1
          failedCalls := b.failedCalls + 1
          lastError := some e
          lastFailureTime := t'
          failureCount := b.failureCount + 1 }
        invocations := 1
        events := [] } := by
  have h1 : ¬ (b.state = .OPEN ∧ b.lastFailureTime + b.durationOfBreakInMs ≤ t) := by
    simp [hs]
  have h2 : ¬ b.failureThreshold ≤ b.failureCount + 1 := by omega
  simp [CircuitBreaker.execute, CircuitBreaker.recoveryProbe, CircuitBreaker.onFailure,
    CircuitBreaker.setState, hs, h1, h2]

theorem execute_closed_fail_ge {α : Type} (b : CircuitBreaker) (t t' : Int)
    (e : Err) (hs : b.state = .CLOSED)
    (hge : b.failureThreshold ≤ b.failureCount + 1) :
    b.execute (α := α) t t' (.failure e) =
      { result := .opError e
        breaker := { b with
          totalCalls := b.totalCalls + 1
          failedCalls := b.failedCalls + 1
          lastError := some e
          lastFailureTime := t'
          failureCount := 0
          state := .OPEN
          lastStateChangeTime := t' }
        invocations := 1
        events := [(.OPEN, some e)] } := by
  have h1 : ¬ (b.state = .OPEN ∧ b.lastFailureTime + b.durationOfBreakInMs ≤ t) := by
    simp [hs]
  simp [CircuitBreaker.execute, CircuitBreaker.recoveryProbe, CircuitBreaker.onFailure,
    CircuitBreaker.setState, hs, h1, hge]

theorem execute_half_open_success_lt {α : Type} (b : CircuitBreaker) (t t' : Int)
    (v : α) (hs : b.state = .HALF_OPEN)
    (hlt : b.successCount + 1 < b.successThreshold) :
    b.execute t t' (.success v) =
      { result := .ok v
        breaker := { b with
          totalCalls := b.totalCalls + 1
          successfulCalls := b.successfulCalls + 1
          successCount := b.successCount + 1 }
        invocations := 1
        events := [] } := by
  have h1 : ¬ (b.state = .OPEN ∧ b.lastFailureTime + b.durationOfBreakInMs ≤ t) := by
    simp [hs]
  have h2 : ¬ b.successThreshold ≤ b.successCount + 1 := by omega
  simp [CircuitBreaker.execute, CircuitBreaker.recoveryProbe, CircuitBreaker.onSuccess,
    CircuitBreaker.setState, hs, h1, h2]

theorem execute_half_open_success_ge {α : Type} (b : CircuitBreaker) (t t' : Int)
    (v : α) (hs : b.state = .HALF_OPEN)
    (hge : b.successThreshold ≤ b.successCount + 1) :
    b.execute t t' (.success v) =
      { result := .ok v
        breaker := { b with
          totalCalls := b.totalCalls + 1
          successfulCalls := b.successfulCalls + 1
          successCount := 0
          failureCount := 0
          lastError := none
          state := .CLOSED
          lastStateChangeTime := t' }
        invocations := 1
        events := [(.CLOSED, none)] } := by
  have h1 : ¬ (b.state = .OPEN ∧ b.lastFailureTime + b.durationOfBreakInMs ≤ t) := by
    simp [hs]
  simp [CircuitBreaker.execute, CircuitBreaker.recoveryProbe, CircuitBreaker.onSuccess,
    CircuitBreaker.setState, CircuitBreaker.reset, hs, h1, hge]

theorem execute_half_open_fail {α : Type} (b : CircuitBreaker) (t t' : Int)
    (e : Err) (hs : b.state = .HALF_OPEN) :
    b.execute (α := α) t t' (.failure e) =
      { result := .opError e
        breaker := { b with
          totalCalls := b.totalCalls + 1
          failedCalls := b.failedCalls + 1
          lastError := some e
          lastFailureTime := t'
          failureCount := 0
          successCount := 0
          state := .OPEN
          lastStateChangeTime := t' }
        invocations := 1
        events := [(.OPEN, some e)] } := by
  have h1 : ¬ (b.state = .OPEN ∧ b.lastFailureTime + b.durationOfBreakInMs ≤ t) := by
    simp [hs]
  simp [CircuitBreaker.execute, CircuitBreaker.recoveryProbe, CircuitBreaker.onFailure,
    CircuitBreaker.setState, hs, h1]

theorem execute_open_early {α : Type} (b : CircuitBreaker) (t t' : Int)
    (o : Outcome α) (hs : b.state = .OPEN)
    (hearly : t < b.lastFailureTime + b.durationOfBreakInMs) :
    b.execute t t' o =
      { result := .circuitOpen (CircuitOpenError.make b.lastError)
        breaker := { b with
          rejectedCalls := b.rejectedCalls + 1
          totalCalls := b.totalCalls + 1 }
        invocations := 0
        events := [] } := by
  have h2 : ¬ b.lastFailureTime + b.durationOfBreakInMs ≤ t := by omega
  simp [CircuitBreaker.execute, CircuitBreaker.recoveryProbe, hs, h2]

theorem recoveryProbe_elapsed (b : CircuitBreaker) (t : Int)
    (hs : b.state = .OPEN)
    (helapsed : b.lastFailureTime + b.durationOfBreakInMs ≤ t) :
    b.recoveryProbe t =
      ({ b with state := .HALF_OPEN, lastStateChangeTime := t, successCount := 0 },
       [(.HALF_OPEN, none)]) := by
  simp [CircuitBreaker.recoveryProbe, CircuitBreaker.setState, hs, helapsed]

/-! ### Sequences of calls -/

theorem runCalls_nil {α : Type} (b : CircuitBreaker) :
    b.runCalls (α := α) [] = (b, []) := rfl

theorem runCalls_cons {α : Type} (b : CircuitBreaker) (c : CallSpec α)
    (cs : List (CallSpec α)) :
    b.runCalls (c :: cs) =
      (((b.execute c.tCall c.tDone c.outcome).breaker.runCalls cs).1,
        (b.execute c.tCall c.tDone c.outcome).events ++
          ((b.execute c.tCall c.tDone c.outcome).breaker.runCalls cs).2) := rfl

theorem runCalls_append {α : Type} (b : CircuitBreaker) (l1 l2 : List (CallSpec α)) :
    b.runCalls (l1 ++ l2) =
      (((b.runCalls l1).1.runCalls l2).1,
        (b.runCalls l1).2 ++ ((b.runCalls l1).1.runCalls l2).2) := by
  induction l1 generalizing b with
  | nil => simp [runCalls_nil]
  | cons c cs ih =>
      simp only [List.cons_append, runCalls_cons, ih, List.append_assoc]

theorem runFails_cons (b : CircuitBreaker) (t : Int) (e : Err) (errs : List Err) :
    b.runFails t (e :: errs) =
      (((b.execute (α := Unit) t t (.failure e)).breaker.runFails t errs).1,
        (b.execute (α := Unit) t t (.failure e)).events ++
          ((b.execute (α := Unit) t t (.failure e)).breaker.runFails t errs).2) := rfl

theorem runFails_append (b : CircuitBreaker) (t : Int) (l1 l2 : List Err) :
    b.runFails t (l1 ++ l2) =
      (((b.runFails t l1).1.runFails t l2).1,
        (b.runFails t l1).2 ++ ((b.runFails t l1).1.runFails t l2).2) := by
  simp only [CircuitBreaker.runFails, List.map_append, runCalls_append]

theorem runSuccs_cons {α : Type} (b : CircuitBreaker) (t : Int) (v : α)
    (vals : List α) :
    b.runSuccs t (v :: vals) =
      (((b.execute t t (.success v)).breaker.runSuccs t vals).1,
        (b.execute t t (.success v)).events ++
          ((b.execute t t (.success v)).breaker.runSuccs t vals).2) := rfl

theorem runSuccs_append {α : Type} (b : CircuitBreaker) (t : Int) (l1 l2 : List α) :
    b.runSuccs t (l1 ++ l2) =
      (((b.runSuccs t l1).1.runSuccs t l2).1,
        (b.runSuccs t l1).2 ++ ((b.runSuccs t l1).1.runSuccs t l2).2) := by
  simp only [CircuitBreaker.runSuccs, List.map_append, runCalls_append]

/-- Below the failure threshold, a run of failing calls keeps the breaker
CLOSED, adds one to `failureCount` per failure, fires no callback, and
leaves the thresholds untouched. -/
theorem runFails_closed_below (t : Int) :
    ∀ (errs : List Err) (b : CircuitBreaker), b.state = .CLOSED →
      b.failureCount + errs.length < b.failureThreshold →
      (b.runFails t errs).1.state = .CLOSED
      ∧ (b.runFails t errs).1.failureCount = b.failureCount + errs.length
      ∧ (b.runFails t errs).1.failureThreshold = b.failureThreshold
      ∧ (b.runFails t errs).1.successThreshold = b.successThreshold
      ∧ (b.runFails t errs).2 = [] := by
  intro errs
  induction errs with
  | nil => intro b hs _; simp [CircuitBreaker.runFails, runCalls_nil, hs]
  | cons e errs ih =>
      intro b hs hlt
      have hstep : b.failureCount + 1 < b.failureThreshold := by
        simp only [List.length_cons] at hlt; omega
      rw [runFails_cons, execute_closed_fail_lt b t t e hs hstep]
      have ihx := ih { b with
          totalCalls := b.totalCalls + 1
          failedCalls := b.failedCalls + 1
          lastError := some e
          lastFailureTime := t
          failureCount := b.failureCount + 1 }
        (by simp [hs]) (by simp only [List.length_cons] at hlt; simp; omega)
      simp only [List.length_cons]
      refine ⟨ihx.1, ?_, ?_, ?_, ?_⟩
      · rw [ihx.2.1]; simp; omega
      · rw [ihx.2.2.1]
      · rw [ihx.2.2.2.1]
      · simp [ihx.2.2.2.2]

/-- Below the success threshold, a run of successful calls keeps the breaker
HALF_OPEN, adds one to `successCount` per success, fires no callback, keeps
`lastError`, and leaves the thresholds untouched. -/
theorem runSuccs_half_open_below {α : Type} (t : Int) :
    ∀ (vals : List α) (b : CircuitBreaker), b.state = .HALF_OPEN →
      b.successCount + vals.length < b.successThreshold →
      (b.runSuccs t vals).1.state = .HALF_OPEN
      ∧ (b.runSuccs t vals).1.successCount = b.successCount + vals.length
      ∧ (b.runSuccs t vals).1.successThreshold = b.successThreshold
      ∧ (b.runSuccs t vals).1.lastError = b.lastError
      ∧ (b.runSuccs t vals).2 = [] := by
  intro vals
  induction vals with
  | nil => intro b hs _; simp [CircuitBreaker.runSuccs, runCalls_nil, hs]
  | cons v vals ih =>
      intro b hs hlt
      have hstep : b.successCount + 1 < b.successThreshold := by
        simp only [List.length_cons] at hlt; omega
      rw [runSuccs_cons, execute_half_open_success_lt b t t v hs hstep]
      have ihx := ih { b with
          totalCalls := b.totalCalls + 1
          successfulCalls := b.successfulCalls + 1
          successCount := b.successCount + 1 }
        (by simp [hs]) (by simp only [List.length_cons] at hlt; simp; omega)
      simp only [List.length_cons]
      refine ⟨ihx.1, ?_, ?_, ?_, ?_⟩
      · rw [ihx.2.1]; simp; omega
      · rw [ihx.2.2.1]
      · rw [ihx.2.2.2.1]
      · simp [ihx.2.2.2.2]

/-! ### Concrete fixtures (matching the scenario in the test suite:
thresholds 2/2, break duration 100 ms) -/

def errBoom : Err := ⟨"Error", "boom"⟩

def errBang : Err := ⟨"Error", "bang"⟩

def demoBreaker : CircuitBreaker :=
  { state := .CLOSED
    failureCount := 0
    successCount := 0
    lastFailureTime := 0
    lastStateChangeTime := 0
    successThreshold := 2
    durationOfBreakInMs := 100
    failureThreshold := 2
    lastError := none
    totalCalls := 0
    successfulCalls := 0
    failedCalls := 0
    rejectedCalls := 0 }

def demoAfterOneFailure : CircuitBreaker :=
  (demoBreaker.execute (α := Nat) 1 1 (.failure errBoom)).breaker

def demoOpen : CircuitBreaker :=
  (demoBreaker.runFails 5 [errBoom, errBang]).1

def demoHalfOpen : CircuitBreaker :=
  (demoOpen.recoveryProbe 200).1

/-! ### The claims -/

/-- C1: while the breaker is OPEN and the break duration has not yet
elapsed, `execute` rejects with a `CircuitOpenError` wrapping `lastError`
as its cause, never invokes the operation, and increments `rejectedCalls`
and `totalCalls` by exactly one each. -/
theorem circuit_open_rejection {α : Type} (b : CircuitBreaker)
    (tCall tDone : Int) (o : Outcome α) (hs : b.state = .OPEN)
    (hearly : tCall < b.lastFailureTime + b.durationOfBreakInMs) :
    (b.execute tCall tDone o).result =
      .circuitOpen (CircuitOpenError.make b.lastError)
    ∧ (CircuitOpenError.make b.lastError).cause = b.lastError
    ∧ (b.execute tCall tDone o).invocations = 0
    ∧ (b.execute tCall tDone o).breaker.rejectedCalls = b.rejectedCalls + 1
    ∧ (b.execute tCall tDone o).breaker.totalCalls = b.totalCalls + 1
    ∧ (b.execute tCall tDone o).breaker.successfulCalls = b.successfulCalls
    ∧ (b.execute tCall tDone o).breaker.failedCalls = b.failedCalls := by
  rw [execute_open_early b tCall tDone o hs hearly]
  exact ⟨rfl, rfl, rfl, rfl, rfl, rfl, rfl⟩

theorem circuit_open_rejection_witness :
    demoOpen.state = .OPEN
    ∧ (50 : Int) < demoOpen.lastFailureTime + demoOpen.durationOfBreakInMs
    ∧ (demoOpen.execute (α := Nat) 50 50 (.success 7)).invocations = 0
    ∧ (demoOpen.execute (α := Nat) 50 50 (.success 7)).result =
        .circuitOpen (CircuitOpenError.make demoOpen.lastError) :=
  ⟨by decide, by decide,
    (circuit_open_rejection demoOpen 50 50 (.success 7)
      (by decide) (by decide)).2.2.1,
    (circuit_open_rejection demoOpen 50 50 (.success 7)
      (by decide) (by decide)).1⟩

/-- C3: the first `execute` call at or after
`lastFailureTime + durationOfBreakInMs` moves an OPEN breaker to HALF_OPEN
with `successCount` zeroed before the outcome is evaluated, and that call
is admitted (the operation is invoked once) whatever its outcome. -/
theorem recovery_probe_admits {α : Type} (b : CircuitBreaker)
    (tCall tDone : Int) (hs : b.state = .OPEN)
    (helapsed : b.lastFailureTime + b.durationOfBreakInMs ≤ tCall) :
    (b.recoveryProbe tCall).1.state = .HALF_OPEN
    ∧ (b.recoveryProbe tCall).1.successCount = 0
    ∧ (∀ o : Outcome α, (b.execute tCall tDone o).invocations = 1)
    ∧ (∀ o : Outcome α,
        (b.execute tCall tDone o).events.head? = some (.HALF_OPEN, none)) := by
  have hprobe := recoveryProbe_elapsed b tCall hs helapsed
  refine ⟨by rw [hprobe], by rw [hprobe], ?_, ?_⟩ <;>
    intro o <;> cases o <;>
      simp [CircuitBreaker.execute, hprobe]

theorem recovery_probe_admits_witness :
    demoOpen.state = .OPEN
    ∧ demoOpen.lastFailureTime + demoOpen.durationOfBreakInMs ≤ (200 : Int)
    ∧ (demoOpen.recoveryProbe 200).1.state = .HALF_OPEN
    ∧ (demoOpen.execute (α := Nat) 200 200 (.failure errBoom)).invocations = 1 :=
  ⟨by decide, by decide,
    (recovery_probe_admits (α := Nat) demoOpen 200 200 (by decide) (by decide)).1,
    (recovery_probe_admits demoOpen 200 200 (by decide) (by decide)).2.2.1
      (.failure errBoom)⟩

/-- C4: a single failing call in HALF_OPEN transitions back to OPEN and
zeroes both `failureCount` and `successCount`, notifying the observer with
the triggering error. -/
theorem half_open_failure_reopens {α : Type} (b : CircuitBreaker)
    (t t' : Int) (e : Err) (hs : b.state = .HALF_OPEN) :
    (b.execute (α := α) t t' (.failure e)).breaker.state = .OPEN
    ∧ (b.execute (α := α) t t' (.failure e)).breaker.failureCount = 0
    ∧ (b.execute (α := α) t t' (.failure e)).breaker.successCount = 0
    ∧ (b.execute (α := α) t t' (.failure e)).events = [(.OPEN, some e)] := by
  rw [execute_half_open_fail b t t' e hs]
  exact ⟨rfl, rfl, rfl, rfl⟩

theorem half_open_failure_reopens_witness :
    demoHalfOpen.state = .HALF_OPEN
    ∧ (demoHalfOpen.execute (α := Nat) 201 201 (.failure errBoom)).breaker.state = .OPEN
    ∧ (demoHalfOpen.execute (α := Nat) 201 201 (.failure errBoom)).breaker.successCount = 0 :=
  ⟨by decide,
    (half_open_failure_reopens (α := Nat) demoHalfOpen 201 201 errBoom (by decide)).1,
    (half_open_failure_reopens (α := Nat) demoHalfOpen 201 201 errBoom (by decide)).2.2.1⟩

/-- C8: whenever the operation is invoked (CLOSED or HALF_OPEN), a
successful result is returned unchanged and a failure is re-thrown as the
very same error value, never wrapped or replaced. -/
theorem operation_passthrough {α : Type} (b : CircuitBreaker) (t t' : Int)
    (hs : b.state = .CLOSED ∨ b.state = .HALF_OPEN) :
    (∀ v : α, (b.execute t t' (.success v)).result = .ok v
      ∧ (b.execute t t' (.success v)).invocations = 1)
    ∧ (∀ e : Err, (b.execute (α := α) t t' (.failure e)).result = .opError e
      ∧ (b.execute (α := α) t t' (.failure e)).invocations = 1) := by
  have h1 : ¬ (b.state = .OPEN ∧ b.lastFailureTime + b.durationOfBreakInMs ≤ t) := by
    rcases hs with hs | hs <;> simp [hs]
  have h2 : ¬ b.state = .OPEN := by
    rcases hs with hs | hs <;> simp [hs]
  constructor <;> intro x <;> constructor <;>
    simp [CircuitBreaker.execute, CircuitBreaker.recoveryProbe, h1, h2]

theorem operation_passthrough_witness :
    (demoBreaker.state = .CLOSED ∨ demoBreaker.state = .HALF_OPEN)
    ∧ (demoBreaker.execute (α := Nat) 0 0 (.success 42)).result = .ok 42
    ∧ (demoBreaker.execute (α := Nat) 0 0 (.failure errBang)).result = .opError errBang :=
  ⟨Or.inl (by decide),
    ((operation_passthrough demoBreaker 0 0 (Or.inl (by decide))).1 42).1,
    ((operation_passthrough (α := Nat) demoBreaker 0 0 (Or.inl (by decide))).2 errBang).1⟩

/-- C9: the `onStateChange` callback fires exactly once per actual state
transition — `setState` emits one event carrying the new state and the
triggering error when the state changes and none otherwise — and a call
that leaves the state unchanged (success in CLOSED, failure below the
threshold) fires no callback. -/
theorem state_change_observer {α : Type} (b : CircuitBreaker)
    (now t t' : Int) (s : ECircuitBreakerState) (err : Option Err) :
    ((b.setState now s err).2 = if b.state = s then [] else [(s, err)])
    ∧ (b.state = .CLOSED → ∀ v : α, (b.execute t t' (.success v)).events = [])
    ∧ (b.state = .CLOSED → b.failureCount + 1 < b.failureThreshold →
        ∀ e, (b.execute (α := α) t t' (.failure e)).events = []) := by
  refine ⟨?_, ?_, ?_⟩
  · simp only [CircuitBreaker.setState, ite_not]
    split <;> rfl
  · intro hs v
    rw [execute_closed_success b t t' v hs]
  · intro hs hlt e
    rw [execute_closed_fail_lt b t t' e hs hlt]

theorem state_change_observer_witness :
    ((demoOpen.setState 7 .OPEN none).2 = [])
    ∧ demoBreaker.state = .CLOSED
    ∧ (demoBreaker.execute (α := Nat) 0 0 (.success 1)).events = []
    ∧ (demoBreaker.execute (α := Nat) 0 0 (.failure errBoom)).events = [] :=
  ⟨by
      rw [(state_change_observer (α := Nat) demoOpen 7 0 0 .OPEN none).1]
      decide,
    by decide,
    (state_change_observer demoBreaker 7 0 0 .OPEN none).2.1 (by decide) 1,
    (state_change_observer (α := Nat) demoBreaker 7 0 0 .OPEN none).2.2
      (by decide) (by decide) errBoom⟩

/-- C10: when the failure handler runs while the breaker is already OPEN,
it records the error, moves `lastFailureTime` forward to `now`, and bumps
`failedCalls`, leaving state, `failureCount`, `successCount` untouched and
firing no callback. -/
theorem open_failure_frame (b : CircuitBreaker) (now : Int) (e : Err)
    (hs : b.state = .OPEN) :
    (b.onFailure now e).1.lastError = some e
    ∧ (b.onFailure now e).1.lastFailureTime = now
    ∧ (b.onFailure now e).1.failedCalls = b.failedCalls + 1
    ∧ (b.onFailure now e).1.state = b.state
    ∧ (b.onFailure now e).1.failureCount = b.failureCount
    ∧ (b.onFailure now e).1.successCount = b.successCount
    ∧ (b.onFailure now e).2 = [] := by
  simp [CircuitBreaker.onFailure, hs]

theorem open_failure_frame_witness :
    demoOpen.state = .OPEN
    ∧ (demoOpen.onFailure 9 errBoom).1.lastFailureTime = 9
    ∧ (demoOpen.onFailure 9 errBoom).1.state = demoOpen.state :=
  ⟨by decide,
    (open_failure_frame demoOpen 9 errBoom (by decide)).2.1,
    (open_failure_frame demoOpen 9 errBoom (by decide)).2.2.2.1⟩

/-- C6 counterexample: with `failureThreshold = 2`, one failure leaves the
breaker CLOSED with `failureCount = 1`; a subsequent successful call keeps
`failureCount = 1` — the code does not reset the count on a CLOSED-state
success. -/
theorem closed_success_keeps_failure_count :
    demoAfterOneFailure.state = .CLOSED
    ∧ demoAfterOneFailure.failureCount = 1
    ∧ (demoAfterOneFailure.execute (α := Nat) 2 2 (.success 7)).breaker.failureCount ≠ 0 := by
  decide

/-- C6 (amended): `failureCount` is reset to 0 on the CLOSED-to-OPEN
transition; a successful call completing while CLOSED leaves `failureCount`
unchanged (failures counted while CLOSED need not be consecutive). -/
theorem failure_count_reset_on_open {α : Type} (b : CircuitBreaker)
    (now t t' : Int) (e : Err) (v : α) :
    (b.state = .CLOSED → b.failureThreshold ≤ b.failureCount + 1 →
      (b.onFailure now e).1.state = .OPEN
      ∧ (b.onFailure now e).1.failureCount = 0)
    ∧ (b.state = .CLOSED →
      (b.execute t t' (.success v)).breaker.failureCount = b.failureCount) := by
  constructor
  · intro hs hge
    constructor <;>
      simp [CircuitBreaker.onFailure, CircuitBreaker.setState, hs, hge]
  · intro hs
    rw [execute_closed_success b t t' v hs]

theorem failure_count_reset_on_open_witness :
    demoAfterOneFailure.state = .CLOSED
    ∧ demoAfterOneFailure.failureThreshold ≤ demoAfterOneFailure.failureCount + 1
    ∧ (demoAfterOneFailure.onFailure 3 errBang).1.state = .OPEN
    ∧ (demoAfterOneFailure.onFailure 3 errBang).1.failureCount = 0
    ∧ (demoAfterOneFailure.execute (α := Nat) 2 2 (.success 7)).breaker.failureCount
        = demoAfterOneFailure.failureCount :=
  ⟨by decide, by decide,
    ((failure_count_reset_on_open (α := Nat) demoAfterOneFailure 3 2 2 errBang 7).1
      (by decide) (by decide)).1,
    ((failure_count_reset_on_open (α := Nat) demoAfterOneFailure 3 2 2 errBang 7).1
      (by decide) (by decide)).2,
    (failure_count_reset_on_open demoAfterOneFailure 3 2 2 errBang 7).2 (by decide)⟩

/-- C2: starting CLOSED with `failureCount = 0` and
`failureThreshold = errs.length + 1`, every proper prefix of the failing
calls leaves the breaker CLOSED; after the final (threshold-th) failure the
state is OPEN, `failureCount` is back to 0, and the observer was notified
exactly once, with OPEN and the last failure's error. -/
theorem failure_threshold_opens (b : CircuitBreaker) (t : Int)
    (errs : List Err) (e : Err)
    (hs : b.state = .CLOSED) (h0 : b.failureCount = 0)
    (hlen : errs.length + 1 = b.failureThreshold) :
    (∀ k, k ≤ errs.length →
      (b.runFails t ((errs ++ [e]).take k)).1.state = .CLOSED)
    ∧ (b.runFails t (errs ++ [e])).1.state = .OPEN
    ∧ (b.runFails t (errs ++ [e])).1.failureCount = 0
    ∧ (b.runFails t (errs ++ [e])).2 = [(.OPEN, some e)] := by
  obtain ⟨hb1s, hb1fc, hb1th, hb1sth, hb1ev⟩ :=
    runFails_closed_below t errs b hs (by omega)
  constructor
  · intro k hk
    rw [List.take_append_of_le_length hk]
    have hlt : b.failureCount + (errs.take k).length < b.failureThreshold := by
      rw [List.length_take]; omega
    exact (runFails_closed_below t (errs.take k) b hs hlt).1
  · have happ := runFails_append b t errs [e]
    have hge : (b.runFails t errs).1.failureThreshold ≤
        (b.runFails t errs).1.failureCount + 1 := by
      rw [hb1fc, hb1th]; omega
    rw [happ, runFails_cons,
      execute_closed_fail_ge (b.runFails t errs).1 t t e hb1s hge, hb1ev]
    refine ⟨rfl, rfl, rfl⟩

theorem failure_threshold_opens_witness :
    demoBreaker.state = .CLOSED
    ∧ demoBreaker.failureCount = 0
    ∧ [errBoom].length + 1 = demoBreaker.failureThreshold
    ∧ (demoBreaker.runFails 5 ([errBoom] ++ [errBang])).1.state = .OPEN
    ∧ (demoBreaker.runFails 5 ([errBoom] ++ [errBang])).2 = [(.OPEN, some errBang)] :=
  ⟨by decide, by decide, by decide,
    (failure_threshold_opens demoBreaker 5 [errBoom] errBang
      (by decide) (by decide) (by decide)).2.1,
    (failure_threshold_opens demoBreaker 5 [errBoom] errBang
      (by decide) (by decide) (by decide)).2.2.2⟩

/-- C5: starting HALF_OPEN with `successCount = 0`, `lastError` set, and
`successThreshold = vals.length + 1`, every proper prefix of the successful
calls leaves the breaker HALF_OPEN with `lastError` still set; after the
final (threshold-th) success the state is CLOSED and `failureCount`,
`successCount`, `lastError` are all reset. -/
theorem success_threshold_closes {α : Type} (b : CircuitBreaker) (t : Int)
    (vals : List α) (v : α) (err : Err)
    (hs : b.state = .HALF_OPEN) (h0 : b.successCount = 0)
    (herr : b.lastError = some err)
    (hlen : vals.length + 1 = b.successThreshold) :
    (∀ k, k ≤ vals.length →
      (b.runSuccs t ((vals ++ [v]).take k)).1.state = .HALF_OPEN
      ∧ (b.runSuccs t ((vals ++ [v]).take k)).1.lastError = some err)
    ∧ (b.runSuccs t (vals ++ [v])).1.state = .CLOSED
    ∧ (b.runSuccs t (vals ++ [v])).1.failureCount = 0
    ∧ (b.runSuccs t (vals ++ [v])).1.successCount = 0
    ∧ (b.runSuccs t (vals ++ [v])).1.lastError = none := by
  obtain ⟨hb1s, hb1sc, hb1th, hb1le, hb1ev⟩ :=
    runSuccs_half_open_below t vals b hs (by omega)
  constructor
  · intro k hk
    rw [List.take_append_of_le_length hk]
    have hlt : b.successCount + (vals.take k).length < b.successThreshold := by
      rw [List.length_take]; omega
    have hh := runSuccs_half_open_below t (vals.take k) b hs hlt
    exact ⟨hh.1, by rw [hh.2.2.2.1, herr]⟩
  · have happ := runSuccs_append b t vals [v]
    have hge : (b.runSuccs t vals).1.successThreshold ≤
        (b.runSuccs t vals).1.successCount + 1 := by
      rw [hb1sc, hb1th]; omega
    rw [happ, runSuccs_cons,
      execute_half_open_success_ge (b.runSuccs t vals).1 t t v hb1s hge]
    refine ⟨rfl, rfl, rfl, rfl⟩

theorem success_threshold_closes_witness :
    demoHalfOpen.state = .HALF_OPEN
    ∧ demoHalfOpen.successCount = 0
    ∧ demoHalfOpen.lastError = some errBang
    ∧ [(7 : Nat)].length + 1 = demoHalfOpen.successThreshold
    ∧ (demoHalfOpen.runSuccs 210 ([(7 : Nat)] ++ [8])).1.state = .CLOSED
    ∧ (demoHalfOpen.runSuccs 210 ([(7 : Nat)] ++ [8])).1.lastError = none :=
  ⟨by decide, by decide, by decide, by decide,
    (success_threshold_closes demoHalfOpen 210 [(7 : Nat)] 8 errBang
      (by decide) (by decide) (by decide) (by decide)).2.1,
    (success_threshold_closes demoHalfOpen 210 [(7 : Nat)] 8 errBang
      (by decide) (by decide) (by decide) (by decide)).2.2.2.2⟩

/-- Every `execute` call bumps `totalCalls` by one and exactly one of the
three outcome counters by one; no counter ever decreases. -/
theorem execute_metrics_step {α : Type} (b : CircuitBreaker) (t t' : Int)
    (o : Outcome α) :
    (b.execute t t' o).breaker.totalCalls = b.totalCalls + 1
    ∧ (b.execute t t' o).breaker.successfulCalls
        + (b.execute t t' o).breaker.failedCalls
        + (b.execute t t' o).breaker.rejectedCalls
      = b.successfulCalls + b.failedCalls + b.rejectedCalls + 1
    ∧ b.successfulCalls ≤ (b.execute t t' o).breaker.successfulCalls
    ∧ b.failedCalls ≤ (b.execute t t' o).breaker.failedCalls
    ∧ b.rejectedCalls ≤ (b.execute t t' o).breaker.rejectedCalls := by
  cases o
  all_goals
    simp only [CircuitBreaker.execute, CircuitBreaker.recoveryProbe,
      CircuitBreaker.onSuccess, CircuitBreaker.onFailure,
      CircuitBreaker.setState, CircuitBreaker.reset]
  all_goals repeat' split
  all_goals try simp_all
  all_goals omega

/-- C7: whenever the metrics snapshot satisfies
`totalCalls = successfulCalls + failedCalls + rejectedCalls`, it still does
after any finite sequence of completed `execute` calls, and none of the
four counters ever decreases across the sequence (instantiating the breaker
at any intermediate point gives the step-by-step monotonicity). -/
theorem metrics_conservation {α : Type} (b : CircuitBreaker)
    (cs : List (CallSpec α))
    (hinv : b.metrics.totalCalls =
      b.metrics.successfulCalls + b.metrics.failedCalls + b.metrics.rejectedCalls) :
    ((b.runCalls cs).1.metrics.totalCalls =
      (b.runCalls cs).1.metrics.successfulCalls
        + (b.runCalls cs).1.metrics.failedCalls
        + (b.runCalls cs).1.metrics.rejectedCalls)
    ∧ b.metrics.totalCalls ≤ (b.runCalls cs).1.metrics.totalCalls
    ∧ b.metrics.successfulCalls ≤ (b.runCalls cs).1.metrics.successfulCalls
    ∧ b.metrics.failedCalls ≤ (b.runCalls cs).1.metrics.failedCalls
    ∧ b.metrics.rejectedCalls ≤ (b.runCalls cs).1.metrics.rejectedCalls := by
  simp only [CircuitBreaker.metrics] at hinv ⊢
  induction cs generalizing b with
  | nil => simp only [runCalls_nil]; omega
  | cons c cs ih =>
      simp only [runCalls_cons]
      have hstep := execute_metrics_step b c.tCall c.tDone c.outcome
      have ihx := ih (b.execute c.tCall c.tDone c.outcome).breaker (by omega)
      refine ⟨ihx.1, ?_, ?_, ?_, ?_⟩ <;> omega

theorem metrics_conservation_witness :
    (demoBreaker.metrics.totalCalls =
      demoBreaker.metrics.successfulCalls + demoBreaker.metrics.failedCalls
        + demoBreaker.metrics.rejectedCalls)
    ∧ ((demoBreaker.runCalls (α := Nat)
          [⟨0, 0, .failure errBoom⟩, ⟨1, 1, .success 5⟩,
           ⟨2, 2, .failure errBang⟩, ⟨3, 3, .failure errBoom⟩,
           ⟨4, 4, .success 6⟩]).1.metrics.totalCalls =
        (demoBreaker.runCalls (α := Nat)
          [⟨0, 0, .failure errBoom⟩, ⟨1, 1, .success 5⟩,
           ⟨2, 2, .failure errBang⟩, ⟨3, 3, .failure errBoom⟩,
           ⟨4, 4, .success 6⟩]).1.metrics.successfulCalls
        + (demoBreaker.runCalls (α := Nat)
          [⟨0, 0, .failure errBoom⟩, ⟨1, 1, .success 5⟩,
           ⟨2, 2, .failure errBang⟩, ⟨3, 3, .failure errBoom⟩,
           ⟨4, 4, .success 6⟩]).1.metrics.failedCalls
        + (demoBreaker.runCalls (α := Nat)
          [⟨0, 0, .failure errBoom⟩, ⟨1, 1, .success 5⟩,
           ⟨2, 2, .failure errBang⟩, ⟨3, 3, .failure errBoom⟩,
           ⟨4, 4, .success 6⟩]).1.metrics.rejectedCalls) :=
  ⟨by decide,
    (metrics_conservation demoBreaker
      [⟨0, 0, .failure errBoom⟩, ⟨1, 1, .success 5⟩,
       ⟨2, 2, .failure errBang⟩, ⟨3, 3, .failure errBoom⟩,
       ⟨4, 4, .success 6⟩] (by decide)).1⟩
